import Mathlib

/-!
Verification of the PebbleRun watchapp core (appmsg.c, hr.c, ui.c, main.c,
common.h) against its natural-language specification.

The embedding translates each C function into a Lean function on an explicit
system state.  External collaborators (Pebble health service, AppMessage
transport, window system) are modelled by Boolean oracle parameters for their
fallible results and by an effect trace recording the calls made to them.
Machine integers are Nat with explicit reductions modulo 2^16 where the C
code casts.
-/

set_option autoImplicit false

namespace PebbleRun

/-- AppMessage key KEY_PACE = 0 (common.h). -/
def KEY_PACE : Nat := 0

/-- AppMessage key KEY_TIME = 1 (common.h). -/
def KEY_TIME : Nat := 1

/-- AppMessage key KEY_HR = 2 (common.h). -/
def KEY_HR : Nat := 2

/-- AppMessage key KEY_CMD = 3 (common.h). -/
def KEY_CMD : Nat := 3

/-- Command CMD_START = 1 (common.h). -/
def CMD_START : Nat := 1

/-- Command CMD_STOP = 2 (common.h). -/
def CMD_STOP : Nat := 2

/-- Typed value of a Pebble dictionary tuple, as discriminated by the
`type` field checked in inbox_received_callback. -/
inductive TupleValue where
  | cstring (s : String)
  | uint8 (n : Nat)
  | uint16 (n : Nat)
  | uint32 (n : Nat)
  deriving DecidableEq, Repr

/-- A delivered AppMessage dictionary: association list from integer key to
typed value.  dict_find returns the first entry with the given key. -/
def dict_find (msg : List (Nat × TupleValue)) (key : Nat) : Option TupleValue :=
  (msg.find? (fun kv => kv.1 = key)).map Prod.snd

/-- The global AppState g_app_state (common.h / main.c).  pace_text and
time_text are the 16-byte char arrays; we store the C-string contents
(at most 15 characters, the 16th byte being the terminator). -/
structure AppState where
  is_active : Bool
  current_hr : Nat
  pace_text : String
  time_text : String
  deriving DecidableEq, Repr

/-- Observable calls the core makes on its external collaborators, in
program order, plus the log reports it emits. -/
inductive Effect where
  | log_info
  | log_debug
  | log_warning
  | log_error
  | mark_dirty
  | window_push
  | window_remove
  | window_pop_all
  | set_sample_period (p : Nat)
  | outbox_send_hr (v : Nat)
  deriving DecidableEq, Repr

/-- Whole-system state: g_app_state, the static s_hr_monitoring flag of
hr.c, the AppMessage outbound slot (list of payloads handed to the
transport and not yet completed; the transport reports busy while it is
nonempty), whether s_main_window / s_canvas_layer are non-null, and a
ghost flag recording whether monitoring has ever produced a valid
reading. -/
structure SysState where
  app : AppState
  s_hr_monitoring : Bool
  outbox : List Nat
  window_exists : Bool
  canvas_exists : Bool
  ever_reading : Bool
  deriving DecidableEq, Repr

/-- The initializer of g_app_state in main.c. -/
def init_app_state : AppState :=
  { is_active := false
    current_hr := 0
    pace_text := "--:--/km"
    time_text := "00:00:00" }

/-- System state right after init(): ui_init created the window, the
window load handler created the canvas layer, s_hr_monitoring = false,
no outbound message in flight, no reading yet. -/
def init_state : SysState :=
  { app := init_app_state
    s_hr_monitoring := false
    outbox := []
    window_exists := true
    canvas_exists := true
    ever_reading := false }

/-- Models strncpy(dest, src, sizeof(dest)-1) followed by forcing
dest[sizeof(dest)-1] = the terminator, for the 16-byte text buffers of
ui.c: the stored C string is the first 15 characters of the source. -/
def bounded_copy (src : String) : String :=
  ⟨src.data.take 15⟩

/-- ui_update_hr (ui.c): writes current_hr and marks the canvas dirty
when the canvas layer exists. -/
def ui_update_hr (hr : Nat) (s : SysState) : SysState × List Effect :=
  ({ s with app := { s.app with current_hr := hr } },
   if s.canvas_exists then [Effect.mark_dirty] else [])

/-- ui_update_pace (ui.c): on a non-null pointer, strncpy into the
16-byte buffer with a forced terminator, then mark the canvas dirty when
the canvas layer exists. -/
def ui_update_pace (pace : Option String) (s : SysState) : SysState × List Effect :=
  match pace with
  | some p =>
      ({ s with app := { s.app with pace_text := bounded_copy p } },
       if s.canvas_exists then [Effect.mark_dirty] else [])
  | none => (s, [])

/-- ui_update_time (ui.c): same as ui_update_pace for time_text. -/
def ui_update_time (time : Option String) (s : SysState) : SysState × List Effect :=
  match time with
  | some t =>
      ({ s with app := { s.app with time_text := bounded_copy t } },
       if s.canvas_exists then [Effect.mark_dirty] else [])
  | none => (s, [])

/-- ui_show_window (ui.c): when the window exists, pushes it, sets
is_active := true and marks the canvas dirty when the canvas exists. -/
def ui_show_window (s : SysState) : SysState × List Effect :=
  if s.window_exists then
    ({ s with app := { s.app with is_active := true } },
     [Effect.window_push] ++ (if s.canvas_exists then [Effect.mark_dirty] else []))
  else (s, [])

/-- ui_hide_window (ui.c): when the window exists, removes it from the
stack and sets is_active := false. -/
def ui_hide_window (s : SysState) : SysState × List Effect :=
  if s.window_exists then
    ({ s with app := { s.app with is_active := false } }, [Effect.window_remove])
  else (s, [])

/-- appmsg_send_hr (appmsg.c).  app_message_outbox_begin reports busy
while a previous outbound message has not completed (outbox nonempty);
write_ok and send_ok are the oracle results of dict_write_uint16 and
app_message_outbox_send.  Only a fully successful call hands a payload
to the transport. -/
def appmsg_send_hr (write_ok send_ok : Bool) (hr_bpm : Nat) (s : SysState) :
    SysState × List Effect :=
  if s.outbox.isEmpty then
    if write_ok then
      if send_ok then
        ({ s with outbox := s.outbox ++ [hr_bpm] }, [Effect.outbox_send_hr hr_bpm])
      else (s, [Effect.log_error])
    else (s, [Effect.log_error])
  else (s, [Effect.log_error])

/-- outbox_sent_callback (appmsg.c): the transport completed the
in-flight message successfully; the slot is free again. -/
def outbox_sent_callback (s : SysState) : SysState × List Effect :=
  ({ s with outbox := [] }, [Effect.log_debug])

/-- outbox_failed_callback (appmsg.c): the transport completed the
in-flight message with failure; the slot is free again. -/
def outbox_failed_callback (s : SysState) : SysState × List Effect :=
  ({ s with outbox := [] }, [Effect.log_error])

/-- hr_start_monitoring (hr.c).  set_period_ok is the oracle result of
health_service_set_heart_rate_sample_period(1). -/
def hr_start_monitoring (set_period_ok : Bool) (s : SysState) : SysState × List Effect :=
  if s.s_hr_monitoring then (s, [Effect.log_warning])
  else if set_period_ok then
    ({ s with s_hr_monitoring := true }, [Effect.set_sample_period 1, Effect.log_info])
  else (s, [Effect.set_sample_period 1, Effect.log_error])

/-- hr_stop_monitoring (hr.c).  set_period_ok is the oracle result of
health_service_set_heart_rate_sample_period(0); the C code discards it. -/
def hr_stop_monitoring (set_period_ok : Bool) (s : SysState) : SysState × List Effect :=
  if s.s_hr_monitoring then
    let s1 := { s with s_hr_monitoring := false }
    let r := ui_update_hr 0 s1
    (r.1, [Effect.set_sample_period 0] ++ r.2 ++ [Effect.log_info])
  else (s, [Effect.log_warning])

/-- Health event kinds as discriminated by hr_event_handler. -/
inductive HealthEventType where
  | heart_rate_update
  | other
  deriving DecidableEq, Repr

/-- hr_event_handler (hr.c).  peek is the oracle result of
health_service_peek_current_value: none models HealthValueInvalid, some v
a (signed 32-bit) reading, which the code casts to uint16.  A valid
reading updates the UI, attempts an outbound send and logs; an invalid
one only logs a warning.  The ghost flag ever_reading records a
processed valid reading. -/
def hr_event_handler (event : HealthEventType) (peek : Option Int)
    (write_ok send_ok : Bool) (s : SysState) : SysState × List Effect :=
  match event with
  | HealthEventType.heart_rate_update =>
      match peek with
      | some hr_value =>
          let hr_bpm := (hr_value % 65536).toNat
          let r1 := ui_update_hr hr_bpm s
          let s2 := { r1.1 with ever_reading := true }
          let r2 := appmsg_send_hr write_ok send_ok hr_bpm s2
          (r2.1, r1.2 ++ r2.2 ++ [Effect.log_info])
      | none => (s, [Effect.log_warning])
  | HealthEventType.other => (s, [])

/-- appmsg_handle_command (appmsg.c): logs the received command, then
dispatches on CMD_START / CMD_STOP / unknown. -/
def appmsg_handle_command (set_period_ok : Bool) (cmd : Nat) (s : SysState) :
    SysState × List Effect :=
  if cmd = CMD_START then
    let r1 := ui_show_window s
    let r2 := hr_start_monitoring set_period_ok r1.1
    (r2.1, [Effect.log_info, Effect.log_info] ++ r1.2 ++ r2.2)
  else if cmd = CMD_STOP then
    let r1 := hr_stop_monitoring set_period_ok s
    let r2 := ui_hide_window r1.1
    (r2.1, [Effect.log_info, Effect.log_info] ++ r1.2 ++ r2.2 ++ [Effect.window_pop_all])
  else (s, [Effect.log_info, Effect.log_warning])

/-- appmsg_handle_pace_update (appmsg.c): null-checked, logs and
forwards to ui_update_pace. -/
def appmsg_handle_pace_update (pace : Option String) (s : SysState) :
    SysState × List Effect :=
  match pace with
  | some p =>
      let r := ui_update_pace (some p) s
      (r.1, [Effect.log_debug] ++ r.2)
  | none => (s, [])

/-- appmsg_handle_time_update (appmsg.c): null-checked, logs and
forwards to ui_update_time. -/
def appmsg_handle_time_update (time : Option String) (s : SysState) :
    SysState × List Effect :=
  match time with
  | some t =>
      let r := ui_update_time (some t) s
      (r.1, [Effect.log_debug] ++ r.2)
  | none => (s, [])

/-- The PACE branch of inbox_received_callback: acts only when the tuple
is present with the declared string type. -/
def handle_pace_tuple (tv : Option TupleValue) (s : SysState) : SysState × List Effect :=
  match tv with
  | some (TupleValue.cstring str) => appmsg_handle_pace_update (some str) s
  | _ => (s, [])

/-- The TIME branch of inbox_received_callback: acts only when the tuple
is present with the declared string type. -/
def handle_time_tuple (tv : Option TupleValue) (s : SysState) : SysState × List Effect :=
  match tv with
  | some (TupleValue.cstring str) => appmsg_handle_time_update (some str) s
  | _ => (s, [])

/-- The CMD branch of inbox_received_callback: acts only when the tuple
is present with the declared uint8 type. -/
def handle_cmd_tuple (set_period_ok : Bool) (tv : Option TupleValue) (s : SysState) :
    SysState × List Effect :=
  match tv with
  | some (TupleValue.uint8 n) => appmsg_handle_command set_period_ok n s
  | _ => (s, [])

/-- inbox_received_callback (appmsg.c): logs the delivery, then for each
known key present with the declared type, dispatches; keys of the wrong
type and unknown keys are ignored. -/
def inbox_received_callback (set_period_ok : Bool)
    (msg : List (Nat × TupleValue)) (s : SysState) : SysState × List Effect :=
  let r1 := handle_pace_tuple (dict_find msg KEY_PACE) s
  let r2 := handle_time_tuple (dict_find msg KEY_TIME) r1.1
  let r3 := handle_cmd_tuple set_period_ok (dict_find msg KEY_CMD) r2.1
  (r3.1, [Effect.log_info] ++ r1.2 ++ r2.2 ++ r3.2)

/-- Whether an optional tuple is present with string type
(tuple->type == TUPLE_CSTRING in the C dispatch). -/
def tuple_is_string : Option TupleValue → Bool
  | some (TupleValue.cstring _) => true
  | _ => false

/-- Whether an optional tuple is present with uint8 type
(tuple->type == TUPLE_UINT8 in the C dispatch). -/
def tuple_is_uint8 : Option TupleValue → Bool
  | some (TupleValue.uint8 _) => true
  | _ => false

/-- Core operations delivered serially by the event loop, with the
oracle results of the external collaborators they consult. -/
inductive Event where
  | inbound (set_period_ok : Bool) (msg : List (Nat × TupleValue))
  | command (set_period_ok : Bool) (cmd : Nat)
  | sensor (event : HealthEventType) (peek : Option Int) (write_ok send_ok : Bool)
  | hr_start (set_period_ok : Bool)
  | hr_stop (set_period_ok : Bool)
  | send_hr (write_ok send_ok : Bool) (v : Nat)
  | outbox_sent
  | outbox_failed

/-- Dispatch of one event-loop callback to the corresponding core
operation. -/
def apply_event (e : Event) (s : SysState) : SysState × List Effect :=
  match e with
  | Event.inbound ok msg => inbox_received_callback ok msg s
  | Event.command ok cmd => appmsg_handle_command ok cmd s
  | Event.sensor ev peek wok sok => hr_event_handler ev peek wok sok s
  | Event.hr_start ok => hr_start_monitoring ok s
  | Event.hr_stop ok => hr_stop_monitoring ok s
  | Event.send_hr wok sok v => appmsg_send_hr wok sok v s
  | Event.outbox_sent => outbox_sent_callback s
  | Event.outbox_failed => outbox_failed_callback s

/-- States reachable from init_state by any sequence of core
operations. -/
inductive Reachable : SysState → Prop where
  | init : Reachable init_state
  | step {s : SysState} (e : Event) : Reachable s → Reachable (apply_event e s).1

/-- A concrete mid-session state: session view shown, monitor sampling,
a reading already displayed, outbound slot free. -/
def active_state : SysState :=
  { app := { is_active := true, current_hr := 142, pace_text := "5:30/km", time_text := "00:10:00" }
    s_hr_monitoring := true
    outbox := []
    window_exists := true
    canvas_exists := true
    ever_reading := true }

/-! Helper lemmas: frame facts about each operation, shared by the
invariant proofs. -/

lemma pace_update_fields (p : Option String) (s : SysState) :
    (appmsg_handle_pace_update p s).1.app.current_hr = s.app.current_hr ∧
    (appmsg_handle_pace_update p s).1.ever_reading = s.ever_reading ∧
    (appmsg_handle_pace_update p s).1.outbox = s.outbox := by
  cases p <;> simp [appmsg_handle_pace_update, ui_update_pace]

lemma time_update_fields (t : Option String) (s : SysState) :
    (appmsg_handle_time_update t s).1.app.current_hr = s.app.current_hr ∧
    (appmsg_handle_time_update t s).1.ever_reading = s.ever_reading ∧
    (appmsg_handle_time_update t s).1.outbox = s.outbox := by
  cases t <;> simp [appmsg_handle_time_update, ui_update_time]

lemma ui_show_window_fields (s : SysState) :
    (ui_show_window s).1.app.current_hr = s.app.current_hr ∧
    (ui_show_window s).1.ever_reading = s.ever_reading ∧
    (ui_show_window s).1.outbox = s.outbox ∧
    (ui_show_window s).1.s_hr_monitoring = s.s_hr_monitoring := by
  unfold ui_show_window; split_ifs <;> simp

lemma ui_hide_window_fields (s : SysState) :
    (ui_hide_window s).1.app.current_hr = s.app.current_hr ∧
    (ui_hide_window s).1.ever_reading = s.ever_reading ∧
    (ui_hide_window s).1.outbox = s.outbox := by
  unfold ui_hide_window; split_ifs <;> simp

lemma hr_start_fields (ok : Bool) (s : SysState) :
    (hr_start_monitoring ok s).1.app = s.app ∧
    (hr_start_monitoring ok s).1.ever_reading = s.ever_reading ∧
    (hr_start_monitoring ok s).1.outbox = s.outbox := by
  unfold hr_start_monitoring; split_ifs <;> simp

lemma hr_stop_fields (ok : Bool) (s : SysState) :
    ((hr_stop_monitoring ok s).1.app.current_hr = s.app.current_hr ∨
     (hr_stop_monitoring ok s).1.app.current_hr = 0) ∧
    (hr_stop_monitoring ok s).1.ever_reading = s.ever_reading ∧
    (hr_stop_monitoring ok s).1.outbox = s.outbox := by
  unfold hr_stop_monitoring ui_update_hr; split_ifs <;> simp

lemma command_fields (ok : Bool) (cmd : Nat) (s : SysState) :
    ((appmsg_handle_command ok cmd s).1.app.current_hr = s.app.current_hr ∨
     (appmsg_handle_command ok cmd s).1.app.current_hr = 0) ∧
    (appmsg_handle_command ok cmd s).1.ever_reading = s.ever_reading ∧
    (appmsg_handle_command ok cmd s).1.outbox = s.outbox := by
  unfold appmsg_handle_command
  split_ifs with h1 h2
  · obtain ⟨s1, s2, s3, _⟩ := ui_show_window_fields s
    obtain ⟨t1, t2, t3⟩ := hr_start_fields ok (ui_show_window s).1
    exact ⟨Or.inl (by rw [t1, s1]), by rw [t2, s2], by rw [t3, s3]⟩
  · obtain ⟨s1, s2, s3⟩ := hr_stop_fields ok s
    obtain ⟨t1, t2, t3⟩ := ui_hide_window_fields (hr_stop_monitoring ok s).1
    refine ⟨?_, by rw [t2, s2], by rw [t3, s3]⟩
    rcases s1 with s1 | s1
    · exact Or.inl (by rw [t1, s1])
    · exact Or.inr (by rw [t1, s1])
  · simp

lemma handle_pace_tuple_fields (tv : Option TupleValue) (s : SysState) :
    (handle_pace_tuple tv s).1.app.current_hr = s.app.current_hr ∧
    (handle_pace_tuple tv s).1.ever_reading = s.ever_reading ∧
    (handle_pace_tuple tv s).1.outbox = s.outbox := by
  rcases tv with _ | tv
  · simp [handle_pace_tuple]
  · cases tv <;> simp [handle_pace_tuple] <;> exact pace_update_fields _ _

lemma handle_time_tuple_fields (tv : Option TupleValue) (s : SysState) :
    (handle_time_tuple tv s).1.app.current_hr = s.app.current_hr ∧
    (handle_time_tuple tv s).1.ever_reading = s.ever_reading ∧
    (handle_time_tuple tv s).1.outbox = s.outbox := by
  rcases tv with _ | tv
  · simp [handle_time_tuple]
  · cases tv <;> simp [handle_time_tuple] <;> exact time_update_fields _ _

lemma handle_cmd_tuple_fields (ok : Bool) (tv : Option TupleValue) (s : SysState) :
    ((handle_cmd_tuple ok tv s).1.app.current_hr = s.app.current_hr ∨
     (handle_cmd_tuple ok tv s).1.app.current_hr = 0) ∧
    (handle_cmd_tuple ok tv s).1.ever_reading = s.ever_reading ∧
    (handle_cmd_tuple ok tv s).1.outbox = s.outbox := by
  rcases tv with _ | tv
  · simp [handle_cmd_tuple]
  · cases tv <;> simp [handle_cmd_tuple] <;> exact command_fields _ _ _

lemma send_hr_outbox (wok sok : Bool) (v : Nat) (s : SysState) :
    (appmsg_send_hr wok sok v s).1.outbox = s.outbox ∨
    (s.outbox = [] ∧ (appmsg_send_hr wok sok v s).1.outbox = [v]) := by
  unfold appmsg_send_hr
  split_ifs with h1 h2 h3 <;> simp_all [List.isEmpty_iff]

lemma send_hr_other_fields (wok sok : Bool) (v : Nat) (s : SysState) :
    (appmsg_send_hr wok sok v s).1.app = s.app ∧
    (appmsg_send_hr wok sok v s).1.ever_reading = s.ever_reading ∧
    (appmsg_send_hr wok sok v s).1.s_hr_monitoring = s.s_hr_monitoring := by
  unfold appmsg_send_hr
  split_ifs <;> simp

/-- Each core operation either marks the ghost reading flag, or leaves
it alone while leaving current_hr alone or forcing it to 0. -/
lemma apply_event_hr_ghost (e : Event) (s : SysState) :
    (apply_event e s).1.ever_reading = true ∨
    ((apply_event e s).1.ever_reading = s.ever_reading ∧
     ((apply_event e s).1.app.current_hr = s.app.current_hr ∨
      (apply_event e s).1.app.current_hr = 0)) := by
  cases e with
  | inbound ok msg =>
      right
      simp only [apply_event, inbox_received_callback]
      obtain ⟨h1, h2, _⟩ := handle_pace_tuple_fields (dict_find msg KEY_PACE) s
      obtain ⟨h3, h4, _⟩ := handle_time_tuple_fields (dict_find msg KEY_TIME)
        (handle_pace_tuple (dict_find msg KEY_PACE) s).1
      obtain ⟨h5, h6, _⟩ := handle_cmd_tuple_fields ok (dict_find msg KEY_CMD)
        (handle_time_tuple (dict_find msg KEY_TIME)
          (handle_pace_tuple (dict_find msg KEY_PACE) s).1).1
      refine ⟨by rw [h6, h4, h2], ?_⟩
      rcases h5 with h5 | h5
      · left; rw [h5, h3, h1]
      · right; exact h5
  | command ok cmd =>
      right
      obtain ⟨h1, h2, _⟩ := command_fields ok cmd s
      exact ⟨h2, h1⟩
  | sensor ev peek wok sok =>
      cases ev with
      | heart_rate_update =>
          rcases peek with _ | v
          · right; simp [apply_event, hr_event_handler]
          · left
            simp only [apply_event, hr_event_handler]
            exact (send_hr_other_fields wok sok _ _).2.1
      | other => right; simp [apply_event, hr_event_handler]
  | hr_start ok =>
      right
      have h := hr_start_fields ok s
      simp only [apply_event]
      exact ⟨h.2.1, Or.inl (by rw [h.1])⟩
  | hr_stop ok =>
      right
      have h := hr_stop_fields ok s
      simp only [apply_event]
      exact ⟨h.2.1, h.1⟩
  | send_hr wok sok v =>
      right
      have h := send_hr_other_fields wok sok v s
      simp only [apply_event]
      exact ⟨h.2.1, Or.inl (by rw [h.1])⟩
  | outbox_sent => right; simp [apply_event, outbox_sent_callback]
  | outbox_failed => right; simp [apply_event, outbox_failed_callback]

/-- Strengthened invariant: before any valid reading has been processed,
current_hr is 0. -/
lemma reachable_ghost_inv {s : SysState} (h : Reachable s) :
    s.ever_reading = false → s.app.current_hr = 0 := by
  induction h with
  | init => intro _; rfl
  | step e _ ih =>
      intro hg
      rcases apply_event_hr_ghost e _ with h1 | ⟨h1, h2 | h2⟩
      · rw [h1] at hg; exact absurd hg (by simp)
      · rw [h2]; exact ih (h1 ▸ hg)
      · exact h2

/-- Each core operation leaves the outbound slot alone, frees it, or
fills the free slot with a single message. -/
lemma apply_event_outbox (e : Event) (s : SysState) :
    (apply_event e s).1.outbox = s.outbox ∨ (apply_event e s).1.outbox = [] ∨
    (s.outbox = [] ∧ ∃ w, (apply_event e s).1.outbox = [w]) := by
  cases e with
  | inbound ok msg =>
      left
      simp only [apply_event, inbox_received_callback]
      obtain ⟨_, _, h1⟩ := handle_pace_tuple_fields (dict_find msg KEY_PACE) s
      obtain ⟨_, _, h2⟩ := handle_time_tuple_fields (dict_find msg KEY_TIME)
        (handle_pace_tuple (dict_find msg KEY_PACE) s).1
      obtain ⟨_, _, h3⟩ := handle_cmd_tuple_fields ok (dict_find msg KEY_CMD)
        (handle_time_tuple (dict_find msg KEY_TIME)
          (handle_pace_tuple (dict_find msg KEY_PACE) s).1).1
      rw [h3, h2, h1]
  | command ok cmd => left; exact (command_fields ok cmd s).2.2
  | sensor ev peek wok sok =>
      cases ev with
      | heart_rate_update =>
          rcases peek with _ | v
          · left; simp [apply_event, hr_event_handler]
          · simp only [apply_event, hr_event_handler]
            rcases send_hr_outbox wok sok ((v % 65536).toNat)
              { (ui_update_hr ((v % 65536).toNat) s).1 with ever_reading := true } with
              h | ⟨h1, h2⟩
            · left; rw [h]; rfl
            · right; right
              refine ⟨?_, _, h2⟩
              simpa [ui_update_hr] using h1
      | other => left; simp [apply_event, hr_event_handler]
  | hr_start ok =>
      left; simp only [apply_event]; exact (hr_start_fields ok s).2.2
  | hr_stop ok =>
      left; simp only [apply_event]; exact (hr_stop_fields ok s).2.2
  | send_hr wok sok v =>
      rcases send_hr_outbox wok sok v s with h | ⟨h1, h2⟩
      · left; exact h
      · right; right; exact ⟨h1, _, h2⟩
  | outbox_sent => right; left; rfl
  | outbox_failed => right; left; rfl

/-- At most one outbound message is unacknowledged in any reachable
state. -/
lemma reachable_outbox_le_one {s : SysState} (h : Reachable s) :
    s.outbox.length ≤ 1 := by
  induction h with
  | init => simp [init_state]
  | step e _ ih =>
      rcases apply_event_outbox e _ with h1 | h1 | ⟨_, w, h1⟩ <;> rw [h1]
      · exact ih
      · simp
      · simp

/-! Claim theorems. -/

lemma bounded_copy_data (src : String) : (bounded_copy src).data = src.data.take 15 := rfl

lemma bounded_copy_length (src : String) :
    (bounded_copy src).length = min 15 src.length := by
  cases src with
  | mk data => simp [bounded_copy, String.length]

lemma handle_pace_tuple_not_string (tv : Option TupleValue) (s : SysState)
    (h : tuple_is_string tv = false) : handle_pace_tuple tv s = (s, []) := by
  rcases tv with _ | v
  · rfl
  · cases v <;> simp_all [tuple_is_string, handle_pace_tuple]

lemma handle_time_tuple_not_string (tv : Option TupleValue) (s : SysState)
    (h : tuple_is_string tv = false) : handle_time_tuple tv s = (s, []) := by
  rcases tv with _ | v
  · rfl
  · cases v <;> simp_all [tuple_is_string, handle_time_tuple]

lemma handle_cmd_tuple_not_uint8 (ok : Bool) (tv : Option TupleValue) (s : SysState)
    (h : tuple_is_uint8 tv = false) : handle_cmd_tuple ok tv s = (s, []) := by
  rcases tv with _ | v
  · rfl
  · cases v <;> simp_all [tuple_is_uint8, handle_cmd_tuple]

lemma tuple_is_string_not_uint8 (tv : Option TupleValue)
    (h : tuple_is_string tv = true) : tuple_is_uint8 tv = false := by
  rcases tv with _ | v
  · simp [tuple_is_string] at h
  · cases v <;> simp_all [tuple_is_string, tuple_is_uint8]

/-- C1: dispatching CMD_STOP while the session is active and the sensor
monitor is Sampling first stops the monitor — reconfiguring the sample
period, forcing current_hr to 0 and notifying the presentation layer —
and only then hides the session view; afterwards current_hr = 0 and
is_active = false. -/
theorem cmd_stop_sequences_sensor_stop_before_hide (s : SysState) (ok : Bool)
    (hact : s.app.is_active = true) (hmon : s.s_hr_monitoring = true)
    (hwin : s.window_exists = true) (hcan : s.canvas_exists = true) :
    (appmsg_handle_command ok CMD_STOP s).1.app.current_hr = 0 ∧
    (appmsg_handle_command ok CMD_STOP s).1.app.is_active = false ∧
    (appmsg_handle_command ok CMD_STOP s).1.s_hr_monitoring = false ∧
    (appmsg_handle_command ok CMD_STOP s).2 =
      [Effect.log_info, Effect.log_info, Effect.set_sample_period 0,
       Effect.mark_dirty, Effect.log_info, Effect.window_remove,
       Effect.window_pop_all] := by
  simp [appmsg_handle_command, CMD_START, CMD_STOP, hr_stop_monitoring,
    ui_update_hr, ui_hide_window, hmon, hwin, hcan]

/-- Witness for C1 at a concrete mid-session state. -/
theorem cmd_stop_sequences_sensor_stop_before_hide_witness :
    active_state.app.is_active = true ∧ active_state.s_hr_monitoring = true ∧
    active_state.window_exists = true ∧ active_state.canvas_exists = true ∧
    ((appmsg_handle_command true CMD_STOP active_state).1.app.current_hr = 0 ∧
     (appmsg_handle_command true CMD_STOP active_state).1.app.is_active = false ∧
     (appmsg_handle_command true CMD_STOP active_state).1.s_hr_monitoring = false ∧
     (appmsg_handle_command true CMD_STOP active_state).2 =
       [Effect.log_info, Effect.log_info, Effect.set_sample_period 0,
        Effect.mark_dirty, Effect.log_info, Effect.window_remove,
        Effect.window_pop_all]) :=
  ⟨rfl, rfl, rfl, rfl,
   cmd_stop_sequences_sensor_stop_before_hide active_state true rfl rfl rfl rfl⟩

/-- C7: start() while already Sampling and stop() while already Stopped
leave the whole system state unchanged and emit exactly a warning
report. -/
theorem start_stop_idempotent (s t : SysState) (ok1 ok2 : Bool)
    (hs : s.s_hr_monitoring = true) (ht : t.s_hr_monitoring = false) :
    hr_start_monitoring ok1 s = (s, [Effect.log_warning]) ∧
    hr_stop_monitoring ok2 t = (t, [Effect.log_warning]) := by
  constructor
  · simp [hr_start_monitoring, hs]
  · simp [hr_stop_monitoring, ht]

/-- Witness for C7: start on a sampling state, stop on the initial
(stopped) state. -/
theorem start_stop_idempotent_witness :
    active_state.s_hr_monitoring = true ∧ init_state.s_hr_monitoring = false ∧
    (hr_start_monitoring true active_state = (active_state, [Effect.log_warning]) ∧
     hr_stop_monitoring true init_state = (init_state, [Effect.log_warning])) :=
  ⟨rfl, rfl, start_stop_idempotent active_state init_state true true rfl rfl⟩

/-- C8: a command value other than CMD_START and CMD_STOP leaves the
system state exactly as before and produces only the reception log and
exactly one warning report — no sensor or presentation effect. -/
theorem unknown_command_frame (s : SysState) (ok : Bool) (cmd : Nat)
    (h1 : cmd ≠ CMD_START) (h2 : cmd ≠ CMD_STOP) :
    (appmsg_handle_command ok cmd s).1 = s ∧
    (appmsg_handle_command ok cmd s).2 = [Effect.log_info, Effect.log_warning] ∧
    (appmsg_handle_command ok cmd s).2.count Effect.log_warning = 1 := by
  have he : appmsg_handle_command ok cmd s = (s, [Effect.log_info, Effect.log_warning]) := by
    simp [appmsg_handle_command, h1, h2]
  exact ⟨by rw [he], by rw [he], by rw [he]; rfl⟩

/-- Witness for C8 with command value 99. -/
theorem unknown_command_frame_witness :
    (99 : Nat) ≠ CMD_START ∧ (99 : Nat) ≠ CMD_STOP ∧
    ((appmsg_handle_command true 99 active_state).1 = active_state ∧
     (appmsg_handle_command true 99 active_state).2 =
       [Effect.log_info, Effect.log_warning] ∧
     (appmsg_handle_command true 99 active_state).2.count Effect.log_warning = 1) :=
  ⟨by decide, by decide,
   unknown_command_frame active_state true 99 (by decide) (by decide)⟩

/-- C9: start() on a Stopped monitor attempts to configure the fastest
sample period; it transitions to Sampling exactly when that succeeds,
and on failure the state is unchanged and the failure is reported. -/
theorem start_requires_period_config (s : SysState) (h : s.s_hr_monitoring = false) :
    hr_start_monitoring true s =
      ({ s with s_hr_monitoring := true },
       [Effect.set_sample_period 1, Effect.log_info]) ∧
    hr_start_monitoring false s =
      (s, [Effect.set_sample_period 1, Effect.log_error]) := by
  constructor <;> simp [hr_start_monitoring, h]

/-- Witness for C9 at the initial (stopped) state. -/
theorem start_requires_period_config_witness :
    init_state.s_hr_monitoring = false ∧
    (hr_start_monitoring true init_state =
       ({ init_state with s_hr_monitoring := true },
        [Effect.set_sample_period 1, Effect.log_info]) ∧
     hr_start_monitoring false init_state =
       (init_state, [Effect.set_sample_period 1, Effect.log_error])) :=
  ⟨rfl, start_requires_period_config init_state rfl⟩

/-- C10: stop() on a Sampling monitor transitions to Stopped and forces
current_hr to 0 whatever the result of the sample-period
reconfiguration, whose oracle value the code discards. -/
theorem stop_ignores_period_config_result (s : SysState) (b : Bool)
    (h : s.s_hr_monitoring = true) :
    (hr_stop_monitoring b s).1.s_hr_monitoring = false ∧
    (hr_stop_monitoring b s).1.app.current_hr = 0 ∧
    hr_stop_monitoring b s = hr_stop_monitoring true s := by
  refine ⟨?_, ?_, rfl⟩ <;> simp [hr_stop_monitoring, ui_update_hr, h]

/-- Witness for C10: stopping from a sampling state with a failing
reconfiguration oracle. -/
theorem stop_ignores_period_config_result_witness :
    active_state.s_hr_monitoring = true ∧
    ((hr_stop_monitoring false active_state).1.s_hr_monitoring = false ∧
     (hr_stop_monitoring false active_state).1.app.current_hr = 0 ∧
     hr_stop_monitoring false active_state = hr_stop_monitoring true active_state) :=
  ⟨rfl, stop_ignores_period_config_result active_state false rfl⟩

/-- C5: a PACE or TIME update longer than 15 characters is stored
truncated to exactly the first 15 characters (the 16th buffer byte
holding the terminator); the stored text never exceeds 15 characters
whatever the input length, and no hypothesis on the session state is
needed — the update is accepted in any state. -/
theorem pace_time_truncation (s : SysState) (p t q : String)
    (hp : p.length > 15) (ht : t.length > 15) :
    (appmsg_handle_pace_update (some p) s).1.app.pace_text.data = p.data.take 15 ∧
    (appmsg_handle_pace_update (some p) s).1.app.pace_text.length = 15 ∧
    (appmsg_handle_time_update (some t) s).1.app.time_text.data = t.data.take 15 ∧
    (appmsg_handle_time_update (some t) s).1.app.time_text.length = 15 ∧
    (appmsg_handle_pace_update (some q) s).1.app.pace_text.length ≤ 15 ∧
    (appmsg_handle_time_update (some q) s).1.app.time_text.length ≤ 15 := by
  simp only [appmsg_handle_pace_update, appmsg_handle_time_update,
    ui_update_pace, ui_update_time]
  refine ⟨bounded_copy_data p, ?_, bounded_copy_data t, ?_, ?_, ?_⟩ <;>
    rw [bounded_copy_length] <;> omega

/-- Witness for C5 with 19-character inputs and a short input. -/
theorem pace_time_truncation_witness :
    ("0123456789abcdefXYZ" : String).length > 15 ∧
    ("ABCDEFGHIJKLMNOPQRS" : String).length > 15 ∧
    ((appmsg_handle_pace_update (some "0123456789abcdefXYZ") init_state).1.app.pace_text.data
        = ("0123456789abcdefXYZ" : String).data.take 15 ∧
     (appmsg_handle_pace_update (some "0123456789abcdefXYZ") init_state).1.app.pace_text.length = 15 ∧
     (appmsg_handle_time_update (some "ABCDEFGHIJKLMNOPQRS") init_state).1.app.time_text.data
        = ("ABCDEFGHIJKLMNOPQRS" : String).data.take 15 ∧
     (appmsg_handle_time_update (some "ABCDEFGHIJKLMNOPQRS") init_state).1.app.time_text.length = 15 ∧
     (appmsg_handle_pace_update (some "x") init_state).1.app.pace_text.length ≤ 15 ∧
     (appmsg_handle_time_update (some "x") init_state).1.app.time_text.length ≤ 15) :=
  ⟨by decide, by decide,
   pace_time_truncation init_state "0123456789abcdefXYZ" "ABCDEFGHIJKLMNOPQRS" "x"
     (by decide) (by decide)⟩

/-- C6: a delivered message whose CMD field carries a string-typed value
— and whose PACE and TIME fields, if present, are not well-typed string
fields — is dispatched without any state change and without any effect
beyond the reception log; unknown keys in the message are ignored by
construction since dispatch only consults the known key set. -/
theorem mistyped_cmd_ignored (s : SysState) (ok : Bool)
    (msg : List (Nat × TupleValue))
    (hc : tuple_is_string (dict_find msg KEY_CMD) = true)
    (hp : tuple_is_string (dict_find msg KEY_PACE) = false)
    (ht : tuple_is_string (dict_find msg KEY_TIME) = false) :
    (inbox_received_callback ok msg s).1 = s ∧
    (inbox_received_callback ok msg s).2 = [Effect.log_info] := by
  have e1 := handle_pace_tuple_not_string (dict_find msg KEY_PACE) s hp
  have e2 := handle_time_tuple_not_string (dict_find msg KEY_TIME) s ht
  have e3 := handle_cmd_tuple_not_uint8 ok (dict_find msg KEY_CMD) s
    (tuple_is_string_not_uint8 _ hc)
  constructor <;> simp [inbox_received_callback, e1, e2, e3]

/-- Witness for C6: a message holding a string-typed CMD and an unknown
key, dispatched at a mid-session state. -/
theorem mistyped_cmd_ignored_witness :
    tuple_is_string (dict_find [(KEY_CMD, TupleValue.cstring "2"), (7, TupleValue.uint8 9)] KEY_CMD) = true ∧
    tuple_is_string (dict_find [(KEY_CMD, TupleValue.cstring "2"), (7, TupleValue.uint8 9)] KEY_PACE) = false ∧
    tuple_is_string (dict_find [(KEY_CMD, TupleValue.cstring "2"), (7, TupleValue.uint8 9)] KEY_TIME) = false ∧
    ((inbox_received_callback true [(KEY_CMD, TupleValue.cstring "2"), (7, TupleValue.uint8 9)] active_state).1 = active_state ∧
     (inbox_received_callback true [(KEY_CMD, TupleValue.cstring "2"), (7, TupleValue.uint8 9)] active_state).2 = [Effect.log_info]) :=
  ⟨rfl, rfl, rfl,
   mistyped_cmd_ignored active_state true
     [(KEY_CMD, TupleValue.cstring "2"), (7, TupleValue.uint8 9)] rfl rfl rfl⟩

/-- C2: in every reachable state, current_hr is 0 whenever the session
is inactive and monitoring has never produced a valid reading; the
predicate still holds after one more arbitrary core operation; and
stopping a Sampling monitor forces current_hr to 0 immediately. -/
theorem reachable_hr_zero_invariant (s : SysState) (e : Event) (ok : Bool)
    (h : Reachable s) :
    (s.app.is_active = false ∧ s.ever_reading = false → s.app.current_hr = 0) ∧
    ((apply_event e s).1.app.is_active = false ∧ (apply_event e s).1.ever_reading = false →
      (apply_event e s).1.app.current_hr = 0) ∧
    (s.s_hr_monitoring = true → (hr_stop_monitoring ok s).1.app.current_hr = 0) := by
  refine ⟨fun hh => reachable_ghost_inv h hh.2,
    fun hh => reachable_ghost_inv (Reachable.step e h) hh.2,
    fun hm => ?_⟩
  simp [hr_stop_monitoring, ui_update_hr, hm]

/-- Witness for C2 at the initial state with a completion event. -/
theorem reachable_hr_zero_invariant_witness :
    (init_state.app.is_active = false ∧ init_state.ever_reading = false →
      init_state.app.current_hr = 0) ∧
    ((apply_event Event.outbox_sent init_state).1.app.is_active = false ∧
     (apply_event Event.outbox_sent init_state).1.ever_reading = false →
      (apply_event Event.outbox_sent init_state).1.app.current_hr = 0) ∧
    (init_state.s_hr_monitoring = true →
      (hr_stop_monitoring true init_state).1.app.current_hr = 0) :=
  reachable_hr_zero_invariant init_state Event.outbox_sent true Reachable.init

/-- Concrete state with one outbound HR message unacknowledged. -/
def busy_state : SysState :=
  { init_state with outbox := [142] }

/-- C4: a send issued while a previous outbound send is unacknowledged
fails at outbox_begin with the transport busy error — reported, with no
effect on any state, the in-flight message included — and every
reachable state carries at most one unacknowledged outbound message. -/
theorem send_single_slot_discipline (s u : SysState) (v : Nat) (wok sok : Bool)
    (hbusy : s.outbox ≠ []) (hu : Reachable u) :
    appmsg_send_hr wok sok v s = (s, [Effect.log_error]) ∧
    u.outbox.length ≤ 1 := by
  refine ⟨?_, reachable_outbox_le_one hu⟩
  have hne : s.outbox.isEmpty = false := by
    rcases hx : s.outbox with _ | ⟨a, l⟩
    · exact absurd hx hbusy
    · rfl
  simp [appmsg_send_hr, hne]

/-- Witness for C4: a second send while HR 142 is in flight. -/
theorem send_single_slot_discipline_witness :
    busy_state.outbox ≠ [] ∧
    (appmsg_send_hr true true 77 busy_state = (busy_state, [Effect.log_error]) ∧
     init_state.outbox.length ≤ 1) :=
  ⟨by decide, send_single_slot_discipline busy_state init_state 77 true true
    (by decide) Reachable.init⟩

/-- C3 counterexample: from the initial (reachable) state, whose sensor
monitor is Stopped, a valid heart-rate sample event sets current_hr to
the sampled value and pushes an outbound HR send — refuting the claim
that updates and sends happen only while Sampling and that no HR update
is pushed outbound while Stopped. -/
theorem hr_send_while_stopped_counterexample :
    init_state.s_hr_monitoring = false ∧
    (hr_event_handler HealthEventType.heart_rate_update (some 100) true true init_state).1.app.current_hr = 100 ∧
    Effect.outbox_send_hr 100 ∈
      (hr_event_handler HealthEventType.heart_rate_update (some 100) true true init_state).2 ∧
    Reachable (apply_event (Event.sensor HealthEventType.heart_rate_update (some 100) true true) init_state).1 :=
  ⟨rfl, rfl, by decide,
   Reachable.step (Event.sensor HealthEventType.heart_rate_update (some 100) true true)
     Reachable.init⟩

/-- C3 amended: a valid heart-rate sample is turned into a state update
and an attempted outbound send regardless of the monitor state — in
particular every valid sample while Sampling, but equally while Stopped,
since the handler does not consult the monitoring flag; an invalid
reading produces only a warning and no event. -/
theorem hr_sample_update_and_send_any_monitor_state (s : SysState) (v : Int)
    (hfree : s.outbox = []) :
    (hr_event_handler HealthEventType.heart_rate_update (some v) true true s).1.app.current_hr
        = (v % 65536).toNat ∧
    Effect.outbox_send_hr ((v % 65536).toNat) ∈
      (hr_event_handler HealthEventType.heart_rate_update (some v) true true s).2 ∧
    (hr_event_handler HealthEventType.heart_rate_update (some v) true true s).1.s_hr_monitoring
        = s.s_hr_monitoring ∧
    hr_event_handler HealthEventType.heart_rate_update none true true s
        = (s, [Effect.log_warning]) := by
  refine ⟨?_, ?_, ?_, rfl⟩ <;>
    simp [hr_event_handler, ui_update_hr, appmsg_send_hr, hfree]

/-- Witness for the amended C3 theorem: sample 142 at the initial state,
whose monitor is Stopped. -/
theorem hr_sample_update_and_send_any_monitor_state_witness :
    init_state.outbox = [] ∧
    ((hr_event_handler HealthEventType.heart_rate_update (some 142) true true init_state).1.app.current_hr
        = ((142 : Int) % 65536).toNat ∧
     Effect.outbox_send_hr (((142 : Int) % 65536).toNat) ∈
       (hr_event_handler HealthEventType.heart_rate_update (some 142) true true init_state).2 ∧
     (hr_event_handler HealthEventType.heart_rate_update (some 142) true true init_state).1.s_hr_monitoring
        = init_state.s_hr_monitoring ∧
     hr_event_handler HealthEventType.heart_rate_update none true true init_state
        = (init_state, [Effect.log_warning])) :=
  ⟨rfl, hr_sample_update_and_send_any_monitor_state init_state 142 rfl⟩

end PebbleRun
